import Mathlib

/-!
Verification of the `nexus-cli.py` archive-transfer tool (upload/download of a
directory to/from a Nexus Maven2 repository).

The script is shallowly embedded: string helpers mirror the Python string
operations the script relies on (`str.split`, `str.strip`, `str.splitlines`,
`'.'.join`, `os.path.basename`); the orchestrators `do_upload` / `do_download`
and the transport wrapper `run_curl_cmd` are modelled as pure functions over an
abstract filesystem / process-outcome world.  Fatal `die(...)` calls are
modelled by a structured `DieMsg` value together with `renderMsg`, which
produces the exact message text the script formats.
-/

namespace NexusCli

/-! ### Python string primitives -/

/-- Whitespace characters removed by Python `str.strip()` (ASCII range; the
exotic Unicode space characters are outside the model's scope). -/
def pyIsSpace (c : Char) : Bool :=
  c = ' ' || c = '\t' || c = '\n' || c = '\x0d' || c = '\x0b' || c = '\x0c'

/-- Line-boundary characters recognised by Python `str.splitlines()` (besides
the two-character boundary `\r\n`, handled separately). -/
def pyIsLineBreak (c : Char) : Bool :=
  c = '\n' || c = '\x0d' || c = '\x0b' || c = '\x0c' ||
  c = '\x1c' || c = '\x1d' || c = '\x1e' || c = '\x85' ||
  c = '\u2028' || c = '\u2029'

/-- Python `str.strip()` on a character list. -/
def pyStripL (l : List Char) : List Char :=
  ((l.dropWhile pyIsSpace).reverse.dropWhile pyIsSpace).reverse

/-- Python `str.strip()`. -/
def pyStrip (s : String) : String := String.mk (pyStripL s.data)

/-- Worker for Python `str.splitlines()`: `acc` is the (reversed) current
line; `afterCR` records that the previous character was a carriage return
whose line was already emitted, so that a directly following `\n` is part of
a single `\r\n` boundary and is skipped. -/
def pySplitlinesGo : List Char → List Char → Bool → List (List Char)
  | [], acc, _ => if acc.isEmpty then [] else [acc.reverse]
  | c :: rest, acc, afterCR =>
    if afterCR && c = '\n' then pySplitlinesGo rest [] false
    else if c = '\x0d' then acc.reverse :: pySplitlinesGo rest [] true
    else if pyIsLineBreak c then acc.reverse :: pySplitlinesGo rest [] false
    else pySplitlinesGo rest (c :: acc) false

/-- Python `str.splitlines()` on a character list. -/
def pySplitlines (l : List Char) : List (List Char) := pySplitlinesGo l [] false

/-- Worker for Python `str.split(sep)` with a single-character separator. -/
def pySplitChGo (sep : Char) : List Char → List Char → List (List Char)
  | [], acc => [acc.reverse]
  | c :: rest, acc =>
    if c = sep then acc.reverse :: pySplitChGo sep rest []
    else pySplitChGo sep rest (c :: acc)

/-- Python `s.split(sep)` for a one-character separator `sep`. -/
def pySplit (sep : Char) (s : String) : List String :=
  (pySplitChGo sep s.data []).map String.mk

/-- Python `'.'.join(parts)`. -/
def pyJoinDot : List String → String
  | [] => ""
  | [s] => s
  | s :: t :: rest => s ++ "." ++ pyJoinDot (t :: rest)

/-- Python `file.writelines(entries)`: plain concatenation (the script puts the
newline inside each entry itself, `nexus-cli.py` line 96). -/
def writelines : List String → String
  | [] => ""
  | s :: rest => s ++ writelines rest

/-- Digit-string to number, `none` on a non-digit or the empty string. -/
def natOfDigitsGo : List Char → Nat → Option Nat
  | [], acc => some acc
  | c :: rest, acc =>
    if c.isDigit then natOfDigitsGo rest (acc * 10 + (c.toNat - 48)) else none

/-- Digits of a natural number, rejecting the empty list. -/
def natOfDigits : List Char → Option Nat
  | [] => none
  | c :: rest => natOfDigitsGo (c :: rest) 0

/-- Python `int(s)` restricted to optionally-negated decimal literals; `none`
models the `ValueError` Python would raise. -/
def pyInt? (s : String) : Option Int :=
  match s.data with
  | '-' :: rest => (natOfDigits rest).map (fun n => -(n : Int))
  | l => (natOfDigits l).map (fun n => (n : Int))

/-- Boolean prefix test on character lists. -/
def listPrefixOf : List Char → List Char → Bool
  | [], _ => true
  | _ :: _, [] => false
  | a :: as, b :: bs => a == b && listPrefixOf as bs

/-- Boolean contiguous-substring test on character lists. -/
def listIncludes (pat : List Char) : List Char → Bool
  | [] => listPrefixOf pat []
  | c :: rest => listPrefixOf pat (c :: rest) || listIncludes pat rest

/-- `strIncludes pat s`: `pat` occurs contiguously inside `s`. -/
def strIncludes (pat s : String) : Bool := listIncludes pat.data s.data

/-- Python `c in s` for a single character. -/
def containsChar (c : Char) (s : String) : Bool := s.data.any (fun x => x == c)

/-- Python `s.startswith('.')`. -/
def startsWithDot (s : String) : Bool :=
  match s.data with
  | [] => false
  | c :: _ => c = '.'

/-- `args['directory'].strip('/\\')` (`nexus-cli.py` line 59). -/
def pyStripSlashes (s : String) : String :=
  String.mk (((s.data.dropWhile (fun c => c = '/' || c = '\\')).reverse.dropWhile
    (fun c => c = '/' || c = '\\')).reverse)

/-- `os.path.basename` on a POSIX path: final `/`-separated component. -/
def pyBasename (s : String) : String := (pySplit '/' s).getLastD ""

/-- Python `repr` of a `str` list, as an f-string renders it (quoting only;
escaping inside the items is outside the model's scope). -/
def pyListRepr (xs : List String) : String :=
  "[" ++ String.intercalate ", " (xs.map (fun s => "\x27" ++ s ++ "\x27")) ++ "]"

/-- Python `repr` of a `bytes` value as an f-string renders it (quoting only;
escaping is outside the model's scope). -/
def pyBytesRepr (s : String) : String := "b\x27" ++ s ++ "\x27"

/-! ### Directory scan and manifest (`do_upload`, lines 83-107) -/

/-- One `os.scandir` entry: its name and the results of `entry.is_file()` /
`entry.is_dir()` (which an actual directory listing never reports both true). -/
structure DirEntry where
  name : String
  isFile : Bool
  isDir : Bool
deriving DecidableEq, Repr

/-- `len(file.name.split('.')) >= 2`, i.e. the name carries an extension. -/
def hasDotParts (name : String) : Bool :=
  if (pySplit '.' name).length < 2 then false else true

/-- An entry contributes a manifest asset: not hidden, a regular file, and the
name has an extension (lines 87-89). -/
def eligibleB (e : DirEntry) : Bool :=
  (!startsWithDot e.name && e.isFile) && hasDotParts e.name

/-- `'.'.join(parts[0:-1])`: filename with its final extension removed
(line 93). -/
def classifierOf (name : String) : String := pyJoinDot (pySplit '.' name).dropLast

/-- `parts[-1]`: the filename's final dot-separated suffix (line 94). -/
def extensionOf (name : String) : String := (pySplit '.' name).getLastD ""

/-- One asset of the multipart upload: its 1-based index (`maven2.asset{idx}`),
its classifier field if any, its extension field, and the attached file name. -/
structure Asset where
  idx : Nat
  classifier? : Option String
  extension : String
  name : String
deriving DecidableEq, Repr

/-- The scan loop of lines 84-99: walks the entries in scan order, numbering
eligible files from `i` upward (the script starts at 2) and skipping the
rest. -/
def scanAssets : Nat → List DirEntry → List Asset
  | _, [] => []
  | i, e :: rest =>
    if !startsWithDot e.name && e.isFile then
      if (pySplit '.' e.name).length < 2 then scanAssets i rest
      else
        Asset.mk i (some (classifierOf e.name)) (extensionOf e.name) e.name ::
          scanAssets (i + 1) rest
    else scanAssets i rest

/-- The complete asset manifest of one upload: asset #1 is the index file
(`<artifactId>.txt`, extension `txt`, lines 101-105), the scanned files follow
from #2. -/
def uploadManifest (artifactId : String) (entries : List DirEntry) : List Asset :=
  Asset.mk 1 none "txt" (artifactId ++ ".txt") :: scanAssets 2 entries

/-- What the scan loop does with one directory entry (lines 86-99). -/
inductive ScanAction where
  | addAsset (classifier extension : String)
  | warnNoExt
  | noticeSubdir
  | silent
deriving DecidableEq, Repr

/-- The loop body of lines 86-99 for a single entry: eligible files become
assets, files without a dot get a warning, `elif file.is_dir()` gets the
sub-directory notice, anything else falls through silently. -/
def scanStep (e : DirEntry) : ScanAction :=
  if !startsWithDot e.name && e.isFile then
    if (pySplit '.' e.name).length < 2 then .warnNoExt
    else .addAsset (classifierOf e.name) (extensionOf e.name)
  else if e.isDir then .noticeSubdir
  else .silent

/-- The index line for one eligible entry:
`<artifactId>-<version>-<classifier>.<extension>` (line 96, without the
trailing newline). -/
def idxLineOf (artifactId version : String) (e : DirEntry) : String :=
  artifactId ++ "-" ++ version ++ "-" ++ classifierOf e.name ++ "." ++
    extensionOf e.name

/-- The ordered index lines an upload produces for a directory listing. -/
def idxLinesOf (artifactId version : String) (entries : List DirEntry) : List String :=
  (entries.filter eligibleB).map (idxLineOf artifactId version)

/-- `idxEntries` of the script (line 95-96): each line with its trailing
newline, ready for `writelines`. -/
def idxEntriesOf (artifactId version : String) (entries : List DirEntry) : List String :=
  (idxLinesOf artifactId version entries).map (fun l => l ++ "\n")

/-! ### Fatal errors (`die`) -/

/-- The `die(...)` call sites of the script, with the data each message
embeds. -/
inductive DieMsg where
  | noSuchFile (directory : String)
  | notDirectory
  | dotInDirName
  | curlNonzeroExit (returncode : Int) (elapsed : String) (stdout : String)
  | authenticationError (status : Int)
  | passwdEnvUndefined
  | uploadFailedStatus (status : Int) (response : List String) (elapsed : String)
  | downloadIndexNotFound
  | indexEmpty
  | downloadFailedStatus (status : Int) (response : List String) (elapsed : String)
  | destNotEmpty (destDir : String)
deriving DecidableEq, Repr

/-- The exact message text each `die(...)` call formats (`curlOut.stderr` is
`None` because stderr is passed through, line 187; `stdout` appears as a
Python `bytes` repr and `response` as a list repr). -/
def renderMsg : DieMsg → String
  | .noSuchFile d => "no such file or directory: " ++ d
  | .notDirectory => "ERROR: target must be a directory"
  | .dotInDirName => "dir name must not contain a \".\" (dot)"
  | .curlNonzeroExit rc elapsed stdout =>
      "curl failed: status=" ++ toString rc ++ " time=" ++ elapsed ++
        " stdout=" ++ pyBytesRepr stdout ++ " stderr=None"
  | .authenticationError st =>
      "curl failed: status=" ++ toString st ++
        " (authentication error) => check login and password "
  | .passwdEnvUndefined => "NEXUS_PASSWD env variable is not defined"
  | .uploadFailedStatus st resp elapsed =>
      "upload failed stats=" ++ toString st ++ " != 204 response=" ++
        pyListRepr resp ++ " (" ++ elapsed ++ ")"
  | .downloadIndexNotFound =>
      "download failed: directory or index file not found. Did you upload using this tool ?"
  | .indexEmpty => "nothing to download (index file is empty !)"
  | .downloadFailedStatus st resp elapsed =>
      "download failed httpStatus=" ++ toString st ++ " (" ++ elapsed ++
        ") httpResp=" ++ pyListRepr resp ++ " "
  | .destNotEmpty d => "destination directory=" ++ d ++ " exists and not empty"

/-! ### Credentials (`get_auth`, lines 214-231) -/

/-- Explicit arguments and environment as `get_auth` sees them;
`promptedPasswd` is what `getpass.getpass` would return if prompted. -/
structure AuthEnv where
  login : Option String
  passwd : Option String
  nexusLogin : Option String
  nexusPasswd : Option String
  promptedPasswd : String
deriving DecidableEq, Repr

/-- `get_auth` (lines 214-231).  The script's tail-recursive call happens with
both `login` and `passwd` freshly set from the environment, so that call
returns `login:passwd` directly; the recursion is unfolded here.  (The script
also caches the resolved values back into `args`; observable behaviour is the
same.) -/
def get_auth (env : AuthEnv) : Except DieMsg (Option String) :=
  match env.login with
  | some l =>
    let p := env.passwd.getD env.promptedPasswd
    .ok (some (l ++ ":" ++ p))
  | none =>
    match env.nexusLogin with
    | none => .ok none
    | some nl =>
      match env.nexusPasswd with
      | none => .error .passwdEnvUndefined
      | some np => .ok (some (nl ++ ":" ++ np))

/-! ### Transport Invoker (`run_curl_cmd`, lines 161-206) -/

/-- Result of `subprocess.run` when the process could be started and finished
in time: exit code, captured standard output (the `--write-out` trailer
included), and the formatted elapsed time. -/
structure ProcResult where
  returncode : Int
  stdout : String
  elapsedStr : String
deriving DecidableEq, Repr

/-- Behaviour of the external `curl` invocation: it runs to completion, or
`subprocess.run` raises (launch failure / `TimeoutExpired`). -/
inductive CurlStep where
  | runs (r : ProcResult)
  | raises
deriving DecidableEq, Repr

/-- How a modelled run ends: a normal value, a `die(msg)` (logged fatal error,
exit code 1), or an uncaught Python exception. -/
inductive RunOutcome (α : Type) where
  | ok (a : α)
  | died (m : DieMsg)
  | exn
deriving DecidableEq, Repr

/-- Lines 195-199: split stdout into lines, strip each, keep the non-blank
ones. -/
def respLinesOf (stdout : String) : List String :=
  (((pySplitlines stdout.data).map pyStripL).filter
    (fun l => !l.isEmpty)).map String.mk

/-- Python `respLines[-1]`. -/
def pyLast : List String → Option String
  | [] => none
  | [x] => some x
  | _ :: y :: rest => pyLast (y :: rest)

/-- Python `respLines[0:-1]`. -/
def pyDropLast : List String → List String
  | [] => []
  | [_] => []
  | x :: y :: rest => x :: pyDropLast (y :: rest)

/-- Line 201, `int(respLines[-1].split('=')[1])`: `none` models the
`IndexError`/`ValueError` an ill-formed trailer raises. -/
def parseStatusOf (lines : List String) : Option Int :=
  match pyLast lines with
  | none => none
  | some last => ((pySplit '=' last)[1]?).bind pyInt?

/-- Outcome of one `run_curl_cmd` call: whether `subprocess.run` was reached
(i.e. a network call was attempted), and the call's result — on success the
response body lines, the parsed HTTP status, and the elapsed time. -/
structure CurlCall where
  invoked : Bool
  outcome : RunOutcome (List String × Int × String)
deriving DecidableEq, Repr

/-- `run_curl_cmd` (lines 161-206): resolve credentials (a failing `get_auth`
dies before the process starts), run `curl`, fail on a non-zero exit, parse
the status trailer, and die distinctly on 401/403. -/
def run_curl_cmd (env : AuthEnv) (proc : CurlStep) : CurlCall :=
  match get_auth env with
  | .error m => ⟨false, .died m⟩
  | .ok _ =>
    match proc with
    | .raises => ⟨true, .exn⟩
    | .runs r =>
      if r.returncode ≠ 0 then
        ⟨true, .died (.curlNonzeroExit r.returncode r.elapsedStr r.stdout)⟩
      else
        let lines := respLinesOf r.stdout
        match parseStatusOf lines with
        | none => ⟨true, .exn⟩
        | some st =>
          if st = 401 ∨ st = 403 then ⟨true, .died (.authenticationError st)⟩
          else ⟨true, .ok (pyDropLast lines, st, r.elapsedStr)⟩

/-! ### Upload Orchestrator (`do_upload`, lines 58-120) -/

/-- The filesystem as `do_upload` observes it: existence and kind of the
target path, the `os.scandir` listing, and the directory's files keyed by
name (contents included, for tracking the index file's lifecycle). -/
structure UploadFS where
  pathExists : Bool
  isDir : Bool
  entries : List DirEntry
  files : List (String × String)
deriving DecidableEq, Repr

/-- `open(path, 'w+')` + write: (over)write one file. -/
def writeFile (files : List (String × String)) (name content : String) :
    List (String × String) :=
  (name, content) :: files.filter (fun p => p.1 ≠ name)

/-- `os.remove(path)`. -/
def removeFile (files : List (String × String)) (name : String) :
    List (String × String) :=
  files.filter (fun p => p.1 ≠ name)

/-- Contents of a named file, if present. -/
def lookupFile (files : List (String × String)) (name : String) :
    Option String :=
  (files.find? (fun p => p.1 = name)).map (fun p => p.2)

/-- End state of one `do_upload` call: whether `curl` was invoked, the
directory's files at the moment of the transfer call (`none` when validation
failed before the index file was written), the directory's files when the run
ends, and how it ended (`ok` carries the elapsed time of the success log). -/
structure UploadResult where
  invoked : Bool
  filesAtTransfer : Option (List (String × String))
  finalFiles : List (String × String)
  outcome : RunOutcome String
deriving DecidableEq, Repr

/-- `do_upload` (lines 58-120): strip slashes, validate (exists / is a
directory / no dot in the name), scan, write the index file, invoke the
transport inside `try`, remove the index file in `finally`, then check for
status 204. -/
def do_upload (dirArg : String) (version? : Option String) (fs : UploadFS)
    (env : AuthEnv) (proc : CurlStep) : UploadResult :=
  let directory := pyStripSlashes dirArg
  if !fs.pathExists then
    ⟨false, none, fs.files, .died (.noSuchFile directory)⟩
  else if !fs.isDir then
    ⟨false, none, fs.files, .died .notDirectory⟩
  else if containsChar '.' directory then
    ⟨false, none, fs.files, .died .dotInDirName⟩
  else
    let version := version?.getD "1.0"
    let artifactId := pyBasename directory
    let idxName := artifactId ++ ".txt"
    let idxContent := writelines (idxEntriesOf artifactId version fs.entries)
    let files1 := writeFile fs.files idxName idxContent
    let call := run_curl_cmd env proc
    let files2 := removeFile files1 idxName
    match call.outcome with
    | .died m => ⟨call.invoked, some files1, files2, .died m⟩
    | .exn => ⟨call.invoked, some files1, files2, .exn⟩
    | .ok (resp, st, elapsed) =>
      if st ≠ 204 then
        ⟨call.invoked, some files1, files2, .died (.uploadFailedStatus st resp elapsed)⟩
      else ⟨call.invoked, some files1, files2, .ok elapsed⟩

/-! ### Download Orchestrator (`do_download`, lines 123-158) -/

/-- Filesystem state the download validates: whether the destination directory
exists, and whether it is non-empty. -/
structure DownloadWorld where
  destExists : Bool
  destNonEmpty : Bool
deriving DecidableEq, Repr

/-- Observable filesystem/process events of a download, in execution order. -/
inductive DlEv where
  | mkdirEv
  | curlEv
deriving DecidableEq, Repr

/-- End state of one `do_download` call: the event trace and the outcome. -/
structure DownloadResult where
  trace : List DlEv
  outcome : RunOutcome String
deriving DecidableEq, Repr

/-- The `curl` invocation event of one transport call, if the process was
reached. -/
def evOf (c : CurlCall) : List DlEv := if c.invoked then [.curlEv] else []

/-- `do_download` (lines 123-158): validate the destination (fail if it exists
non-empty, create it if absent), fetch the index, check status 200 and a
non-empty file list, then fetch all files and checksums in one call. -/
def do_download (artifactId : String) (version? : Option String)
    (w : DownloadWorld) (env : AuthEnv) (idxProc bulkProc : CurlStep) :
    DownloadResult :=
  let version := version?.getD "1.0"
  let destDir := artifactId ++ "-" ++ version
  if w.destExists && w.destNonEmpty then
    ⟨[], .died (.destNotEmpty destDir)⟩
  else
    let mkEv := if w.destExists then [] else [DlEv.mkdirEv]
    let call1 := run_curl_cmd env idxProc
    let t1 := mkEv ++ evOf call1
    match call1.outcome with
    | .died m => ⟨t1, .died m⟩
    | .exn => ⟨t1, .exn⟩
    | .ok (fileNames, st, _) =>
      if st ≠ 200 then ⟨t1, .died .downloadIndexNotFound⟩
      else if fileNames.length = 0 then ⟨t1, .died .indexEmpty⟩
      else
        let call2 := run_curl_cmd env bulkProc
        let t2 := t1 ++ evOf call2
        match call2.outcome with
        | .died m => ⟨t2, .died m⟩
        | .exn => ⟨t2, .exn⟩
        | .ok (resp2, st2, elapsed2) =>
          if st2 ≠ 200 then
            ⟨t2, .died (.downloadFailedStatus st2 resp2 elapsed2)⟩
          else ⟨t2, .ok elapsed2⟩

/-- A line the index codec round-trips exactly: stripping is the identity, no
line-boundary character occurs inside it, and it is non-blank. -/
def cleanLine (s : String) : Bool :=
  (pyStrip s == s) && s.data.all (fun c => !pyIsLineBreak c) && (s != "")

/-- A sample explicit-credentials environment used in concrete runs. -/
def sampleEnv : AuthEnv := ⟨some "u", some "p", none, none, "pw"⟩

/-- `[start, start+1, ..., start+len-1]`, the asset numbers handed out by the
scan loop. -/
def idxRange : Nat → Nat → List Nat
  | _, 0 => []
  | s, n + 1 => s :: idxRange (s + 1) n

/-! ### Helper lemmas: strings and lists -/

theorem strData_append (a b : String) : (a ++ b).data = a.data ++ b.data := rfl

theorem mk_data (s : String) : String.mk s.data = s := rfl

theorem data_eq_of_eq {a b : String} (h : a = b) : a.data = b.data := by
  rw [h]

theorem eq_of_data_eq {a b : String} (h : a.data = b.data) : a = b := by
  cases a with
  | mk da =>
    cases b with
    | mk db => exact congrArg String.mk h

theorem listPrefixOf_append (p t : List Char) : listPrefixOf p (p ++ t) = true := by
  induction p with
  | nil => rfl
  | cons c rest ih => simp [listPrefixOf, ih]

theorem listIncludes_of_prefixOf (p l : List Char) (h : listPrefixOf p l = true) :
    listIncludes p l = true := by
  cases l with
  | nil => simpa [listIncludes] using h
  | cons c rest => simp [listIncludes, h]

theorem listIncludes_append_mid (a p b : List Char) :
    listIncludes p (a ++ (p ++ b)) = true := by
  induction a with
  | nil =>
    rw [List.nil_append]
    exact listIncludes_of_prefixOf _ _ (listPrefixOf_append p b)
  | cons c rest ih =>
    rw [List.cons_append, listIncludes, ih, Bool.or_true]

theorem strIncludes_intro (pat s : String) (x y : List Char)
    (h : s.data = x ++ (pat.data ++ y)) : strIncludes pat s = true := by
  rw [strIncludes, h]
  exact listIncludes_append_mid x pat.data y

theorem pyLast_concat (l : List String) (x : String) :
    pyLast (l ++ [x]) = some x := by
  induction l with
  | nil => rfl
  | cons a rest ih =>
    cases rest with
    | nil => rfl
    | cons b rest2 => simpa [pyLast] using ih

theorem pyDropLast_concat (l : List String) (x : String) :
    pyDropLast (l ++ [x]) = l := by
  induction l with
  | nil => rfl
  | cons a rest ih =>
    cases rest with
    | nil => rfl
    | cons b rest2 => simpa [pyDropLast] using ih

theorem any_beq_false {c : Char} {l : List Char}
    (h : l.any (fun x => x == c) = false) : ∀ x ∈ l, x ≠ c := by
  induction l with
  | nil => intro x hx; cases hx
  | cons a rest ih =>
    intro x hx
    simp only [List.any_cons, Bool.or_eq_false_iff] at h
    rcases List.mem_cons.mp hx with h1 | h1
    · subst h1
      intro he
      subst he
      simp at h
    · exact ih h.2 x h1

theorem containsChar_forall {c : Char} {s : String}
    (h : containsChar c s = false) : ∀ x ∈ s.data, x ≠ c :=
  any_beq_false h

theorem pySplitChGo_no_sep (sep : Char) (l : List Char)
    (h : ∀ c ∈ l, c ≠ sep) :
    ∀ acc, pySplitChGo sep l acc = [acc.reverse ++ l] := by
  induction l with
  | nil => intro acc; simp [pySplitChGo]
  | cons c rest ih =>
    intro acc
    have hc : c ≠ sep := h c (List.mem_cons_self c rest)
    rw [pySplitChGo, if_neg hc,
      ih (fun d hd => h d (List.mem_cons_of_mem c hd)) (c :: acc)]
    simp

theorem go_cons_other (c : Char) (rest acc : List Char) (b : Bool)
    (h : pyIsLineBreak c = false) :
    pySplitlinesGo (c :: rest) acc b = pySplitlinesGo rest (c :: acc) false := by
  have h1 : c ≠ '\n' := by
    intro e
    subst e
    simp [pyIsLineBreak] at h
  have h2 : c ≠ '\x0d' := by
    intro e
    subst e
    simp [pyIsLineBreak] at h
  simp [pySplitlinesGo, h1, h2, h]

theorem go_cons_nl (rest acc : List Char) :
    pySplitlinesGo ('\n' :: rest) acc false =
      acc.reverse :: pySplitlinesGo rest [] false := by
  simp [pySplitlinesGo, pyIsLineBreak]

theorem go_line (l : List Char) (h : ∀ c ∈ l, pyIsLineBreak c = false) :
    ∀ acc rest, pySplitlinesGo (l ++ '\n' :: rest) acc false =
      (acc.reverse ++ l) :: pySplitlinesGo rest [] false := by
  induction l with
  | nil =>
    intro acc rest
    simpa using go_cons_nl rest acc
  | cons c l2 ih =>
    intro acc rest
    rw [List.cons_append, go_cons_other c _ _ _ (h c (List.mem_cons_self c l2)),
      ih (fun d hd => h d (List.mem_cons_of_mem c hd)) (c :: acc) rest]
    simp

theorem go_lines (lines : List String)
    (h : ∀ l ∈ lines, ∀ c ∈ l.data, pyIsLineBreak c = false) :
    ∀ tail, pySplitlinesGo ((writelines (lines.map (fun l => l ++ "\n"))).data ++ tail) [] false =
      lines.map String.data ++ pySplitlinesGo tail [] false := by
  induction lines with
  | nil =>
    intro tail
    simp [writelines]
  | cons s rest ih =>
    intro tail
    have hd : (writelines ((s :: rest).map (fun l => l ++ "\n"))).data ++ tail
        = s.data ++ '\n' ::
            ((writelines (rest.map (fun l => l ++ "\n"))).data ++ tail) := by
      simp [writelines, strData_append]
    rw [hd, go_line s.data (h s (List.mem_cons_self s rest)),
      ih (fun l hl => h l (List.mem_cons_of_mem s hl)) tail]
    simp

theorem cleanLine_unpack {s : String} (h : cleanLine s = true) :
    pyStripL s.data = s.data ∧ (∀ c ∈ s.data, pyIsLineBreak c = false) ∧
      s.data ≠ [] := by
  rw [cleanLine, Bool.and_eq_true, Bool.and_eq_true] at h
  obtain ⟨⟨h1, h2⟩, h3⟩ := h
  refine ⟨?_, ?_, ?_⟩
  · have : pyStrip s = s := eq_of_beq h1
    exact data_eq_of_eq this
  · intro c hc
    have := List.all_eq_true.mp h2 c hc
    simpa using this
  · intro he
    have : s = "" := eq_of_data_eq (by simpa using he)
    rw [this] at h3
    simp at h3

theorem map_mk_data (lines : List String) :
    (lines.map String.data).map String.mk = lines := by
  induction lines with
  | nil => rfl
  | cons s rest ih => simp [ih, mk_data]

theorem data_ne_nil_of_ne {s : String} (h : s ≠ "") : s.data ≠ [] := by
  intro he
  exact h (eq_of_data_eq (by simpa using he))

theorem map_strip_clean (lines : List String)
    (h : ∀ l ∈ lines, pyStripL l.data = l.data) :
    (lines.map String.data).map pyStripL = lines.map String.data := by
  induction lines with
  | nil => rfl
  | cons s rest ih =>
    simp only [List.map_cons, List.cons.injEq]
    exact ⟨h s (List.mem_cons_self s rest),
      ih (fun l hl => h l (List.mem_cons_of_mem s hl))⟩

theorem filter_nonempty_lines (lines : List String)
    (h : ∀ l ∈ lines, l.data ≠ []) :
    (lines.map String.data).filter (fun l => !l.isEmpty) = lines.map String.data := by
  induction lines with
  | nil => rfl
  | cons s rest ih =>
    have hne : s.data.isEmpty = false := by
      rcases hd : s.data with _ | ⟨c, cs⟩
      · exact absurd hd (h s (List.mem_cons_self s rest))
      · rfl
    simp only [List.map_cons, List.filter_cons, hne, Bool.not_false, if_pos]
    rw [ih (fun l hl => h l (List.mem_cons_of_mem s hl))]

theorem respLinesOf_clean (lines : List String)
    (h : ∀ l ∈ lines, cleanLine l = true) :
    respLinesOf (writelines (lines.map (fun l => l ++ "\n")) ++ "\n**http_status=200\n")
      = lines ++ ["**http_status=200"] := by
  have hbreak : ∀ l ∈ lines, ∀ c ∈ l.data, pyIsLineBreak c = false :=
    fun l hl => (cleanLine_unpack (h l hl)).2.1
  have hsplit : pySplitlines ((writelines (lines.map (fun l => l ++ "\n")) ++
        "\n**http_status=200\n").data)
      = lines.map String.data ++ [[], ("**http_status=200").data] := by
    rw [pySplitlines, strData_append, go_lines lines hbreak]
    have : pySplitlinesGo ("\n**http_status=200\n").data [] false
        = [[], ("**http_status=200").data] := by decide
    rw [this]
  rw [respLinesOf, hsplit, List.map_append, List.filter_append,
    map_strip_clean lines (fun l hl => (cleanLine_unpack (h l hl)).1),
    filter_nonempty_lines lines (fun l hl => (cleanLine_unpack (h l hl)).2.2),
    List.map_append, map_mk_data]
  have : List.map String.mk (List.filter (fun l => !l.isEmpty)
      (List.map pyStripL [[], ("**http_status=200").data])) = ["**http_status=200"] := by
    decide
  rw [this]

theorem pySplitChGo_sep_append (sep : Char) (l rest : List Char)
    (h : ∀ c ∈ l, c ≠ sep) :
    ∀ acc, pySplitChGo sep (l ++ sep :: rest) acc =
      (acc.reverse ++ l) :: pySplitChGo sep rest [] := by
  induction l with
  | nil => intro acc; simp [pySplitChGo]
  | cons c l2 ih =>
    intro acc
    have hc : c ≠ sep := h c (List.mem_cons_self c l2)
    rw [List.cons_append, pySplitChGo, if_neg hc,
      ih (fun d hd => h d (List.mem_cons_of_mem c hd)) (c :: acc)]
    simp

theorem parseStatus_trailer (lines : List String) :
    parseStatusOf (lines ++ ["**http_status=200"]) = some 200 := by
  simp only [parseStatusOf, pyLast_concat]
  decide

/-! ### Claim C1: index round-trip through the download parser -/

/-- Claim C1 (counterexample): the round-trip is not byte-for-byte for every
upload.  A directory holding the single regular file `"data.csv "` (trailing
space) produces the index line `"report-1.0-data.csv "`, but the download
path's parser strips every line, returning `"report-1.0-data.csv"` — not the
string that was written. -/
theorem c1_roundtrip_counterexample :
    run_curl_cmd sampleEnv (.runs ⟨0,
        writelines (idxEntriesOf "report" "1.0" [⟨"data.csv ", true, false⟩]) ++
          "\n**http_status=200\n", "0:00:01"⟩)
      = ⟨true, .ok (["report-1.0-data.csv"], 200, "0:00:01")⟩ ∧
    idxLinesOf "report" "1.0" [⟨"data.csv ", true, false⟩]
      = ["report-1.0-data.csv "] ∧
    (["report-1.0-data.csv"] : List String) ≠ ["report-1.0-data.csv "] := by
  refine ⟨by decide, by decide, by decide⟩

/-- Claim C1 (amended): for every upload whose composed index lines are
strip-invariant, free of line-boundary characters, and non-blank (as every
line made of ordinary file names is), feeding the written index file through
the download path's parser (`run_curl_cmd` on the fetched content plus the
curl status trailer) yields exactly the ordered list of
`<artifactId>-<version>-<classifier>.<extension>` strings written, order
preserved. -/
theorem c1_roundtrip (art ver el : String) (entries : List DirEntry)
    (env : AuthEnv) (a : Option String)
    (hauth : get_auth env = .ok a)
    (hclean : ∀ l ∈ idxLinesOf art ver entries, cleanLine l = true) :
    run_curl_cmd env (.runs ⟨0,
        writelines (idxEntriesOf art ver entries) ++ "\n**http_status=200\n", el⟩)
      = ⟨true, .ok (idxLinesOf art ver entries, 200, el)⟩ := by
  have hresp : respLinesOf (writelines (idxEntriesOf art ver entries) ++
        "\n**http_status=200\n")
      = idxLinesOf art ver entries ++ ["**http_status=200"] :=
    respLinesOf_clean (idxLinesOf art ver entries) hclean
  unfold run_curl_cmd
  rw [hauth]
  simp only [hresp, parseStatus_trailer]
  rw [if_neg (by decide), if_neg (by decide), pyDropLast_concat]

/-- Claim C1 (witness): the spec's own scenario — directory `report` with
`summary.pdf`, `data.csv` and hidden `.DS_Store`, version `2.1` — round-trips
exactly. -/
theorem c1_roundtrip_witness :
    run_curl_cmd sampleEnv (.runs ⟨0,
        writelines (idxEntriesOf "report" "2.1"
          [⟨"summary.pdf", true, false⟩, ⟨"data.csv", true, false⟩,
           ⟨".DS_Store", true, false⟩]) ++ "\n**http_status=200\n", "0:00:02"⟩)
      = ⟨true, .ok (idxLinesOf "report" "2.1"
          [⟨"summary.pdf", true, false⟩, ⟨"data.csv", true, false⟩,
           ⟨".DS_Store", true, false⟩], 200, "0:00:02")⟩ :=
  c1_roundtrip "report" "2.1" "0:00:02"
    [⟨"summary.pdf", true, false⟩, ⟨"data.csv", true, false⟩,
     ⟨".DS_Store", true, false⟩]
    sampleEnv (some "u:p") rfl (by decide)

/-! ### Claim C2: manifest shape -/

theorem idxRange_length (n : Nat) : ∀ s, (idxRange s n).length = n := by
  induction n with
  | zero => intro s; rfl
  | succ n ih => intro s; simp [idxRange, ih]

theorem scanAssets_eq (entries : List DirEntry) :
    ∀ i, scanAssets i entries = List.zipWith
      (fun k e => Asset.mk k (some (classifierOf e.name)) (extensionOf e.name) e.name)
      (idxRange i (entries.filter eligibleB).length) (entries.filter eligibleB) := by
  induction entries with
  | nil => intro i; rfl
  | cons e rest ih =>
    intro i
    cases h1 : (!startsWithDot e.name && e.isFile) with
    | false =>
      have helig : eligibleB e = false := by
        rw [eligibleB, h1, Bool.false_and]
      rw [scanAssets, if_neg (by simp [h1]), List.filter_cons, helig]
      simpa using ih i
    | true =>
      by_cases h2 : (pySplit '.' e.name).length < 2
      · have helig : eligibleB e = false := by
          rw [eligibleB, h1, hasDotParts, if_pos h2, Bool.and_false]
        rw [scanAssets, if_pos (by simp [h1]), if_pos h2, List.filter_cons, helig]
        simpa using ih i
      · have helig : eligibleB e = true := by
          rw [eligibleB, h1, hasDotParts, if_neg h2, Bool.true_and]
        rw [scanAssets, if_pos (by simp [h1]), if_neg h2, List.filter_cons, helig]
        simp only [if_pos]
        rw [List.length_cons, idxRange, List.zipWith_cons_cons, ih (i + 1)]

theorem scanAssets_length (entries : List DirEntry) (i : Nat) :
    (scanAssets i entries).length = (entries.filter eligibleB).length := by
  rw [scanAssets_eq entries i, List.length_zipWith, idxRange_length]
  exact Nat.min_self _

theorem map_idx_zipWith : ∀ (ks : List Nat) (es : List DirEntry),
    es.length = ks.length →
    (List.zipWith (fun k e =>
        Asset.mk k (some (classifierOf e.name)) (extensionOf e.name) e.name)
      ks es).map Asset.idx = ks := by
  intro ks
  induction ks with
  | nil =>
    intro es h
    simp
  | cons k ks2 ih =>
    intro es h
    cases es with
    | nil => simp at h
    | cons e es2 =>
      rw [List.zipWith_cons_cons, List.map_cons]
      rw [ih es2 (by simpa using h)]

/-- Claim C2 (confirmed): for every directory listing with `N` eligible files
(no leading dot, regular file, name contains a dot) the manifest has exactly
`N + 1` assets, numbered `1, 2, ..., N + 1`; asset #1 is the index file
(`<artifactId>.txt`, extension `txt`) and assets #2..#N+1 are the eligible
files in scan order, classifier and extension derived from each name. -/
theorem c2_manifest_shape (art : String) (entries : List DirEntry) :
    (uploadManifest art entries).length = (entries.filter eligibleB).length + 1 ∧
    (uploadManifest art entries).map Asset.idx =
      idxRange 1 ((entries.filter eligibleB).length + 1) ∧
    (uploadManifest art entries).head? =
      some (Asset.mk 1 none "txt" (art ++ ".txt")) ∧
    (uploadManifest art entries).tail = List.zipWith
      (fun k e => Asset.mk k (some (classifierOf e.name)) (extensionOf e.name) e.name)
      (idxRange 2 (entries.filter eligibleB).length) (entries.filter eligibleB) := by
  refine ⟨?_, ?_, rfl, ?_⟩
  · rw [uploadManifest, List.length_cons, scanAssets_length]
  · rw [uploadManifest, List.map_cons, idxRange]
    congr 1
    rw [scanAssets_eq entries 2, map_idx_zipWith _ _ (by rw [idxRange_length])]
  · rw [uploadManifest, List.tail_cons, scanAssets_eq entries 2]

/-! ### Claim C5: scan-loop classification -/

/-- Claim C5 (counterexample): a hidden entry is not always skipped silently.
A hidden sub-directory such as `.git` fails the `is_file` test but then falls
into the `elif file.is_dir()` branch and is logged with the
"skipping sub-directory" notice. -/
theorem c5_scan_counterexample :
    scanStep ⟨".git", false, true⟩ = ScanAction.noticeSubdir ∧
    startsWithDot ".git" = true ∧
    ScanAction.noticeSubdir ≠ ScanAction.silent := by
  refine ⟨by decide, by decide, by decide⟩

/-- Claim C5 (amended): hidden entries that are not directories are skipped
silently; hidden directories are skipped with the sub-directory notice (not
silently); non-hidden sub-directories get the notice; regular files whose
name has no dot get a warning, are not eligible and contribute no manifest
entry (no fatal error); every other regular file yields exactly one manifest
entry with classifier = name minus its final extension and extension = the
name's final dot-separated suffix; ineligible entries never add a manifest
entry. -/
theorem c5_scan_classification (e : DirEntry) :
    (startsWithDot e.name = true → e.isDir = false → scanStep e = .silent) ∧
    (startsWithDot e.name = true → e.isDir = true → scanStep e = .noticeSubdir) ∧
    (startsWithDot e.name = false → e.isFile = false → e.isDir = true →
      scanStep e = .noticeSubdir) ∧
    (startsWithDot e.name = false → e.isFile = false → e.isDir = false →
      scanStep e = .silent) ∧
    (startsWithDot e.name = false → e.isFile = true →
      (pySplit '.' e.name).length < 2 →
      scanStep e = .warnNoExt ∧ eligibleB e = false) ∧
    (startsWithDot e.name = false → e.isFile = true →
      ¬ (pySplit '.' e.name).length < 2 →
      scanStep e = .addAsset (pyJoinDot (pySplit '.' e.name).dropLast)
          ((pySplit '.' e.name).getLastD "") ∧
        ∀ i rest, scanAssets i (e :: rest) =
          Asset.mk i (some (classifierOf e.name)) (extensionOf e.name) e.name ::
            scanAssets (i + 1) rest) ∧
    (eligibleB e = false → ∀ i rest, scanAssets i (e :: rest) = scanAssets i rest) := by
  refine ⟨?_, ?_, ?_, ?_, ?_, ?_, ?_⟩
  · intro h1 h2
    simp [scanStep, h1, h2]
  · intro h1 h2
    simp [scanStep, h1, h2]
  · intro h1 h2 h3
    simp [scanStep, h1, h2, h3]
  · intro h1 h2 h3
    simp [scanStep, h1, h2, h3]
  · intro h1 h2 h3
    constructor
    · simp [scanStep, h1, h2, h3]
    · rw [eligibleB, hasDotParts, if_pos h3, Bool.and_false]
  · intro h1 h2 h3
    constructor
    · simp [scanStep, h1, h2, h3, classifierOf, extensionOf]
    · intro i rest
      rw [scanAssets, if_pos (by simp [h1, h2]), if_neg h3]
  · intro helig i rest
    rw [scanAssets]
    by_cases hc : (!startsWithDot e.name && e.isFile) = true
    · rw [if_pos hc]
      have h3 : (pySplit '.' e.name).length < 2 := by
        by_contra h3
        rw [eligibleB, hc, hasDotParts, if_neg h3, Bool.true_and] at helig
        cases helig
      rw [if_pos h3]
    · rw [if_neg hc]

/-- Claim C5 (witness): a file without a dot gets the warning action, and an
ordinary `data.csv` becomes the asset `(classifier "data", extension "csv")`. -/
theorem c5_scan_classification_witness :
    scanStep ⟨"README", true, false⟩ = ScanAction.warnNoExt ∧
    scanStep ⟨"data.csv", true, false⟩ = ScanAction.addAsset "data" "csv" := by
  constructor
  · exact ((c5_scan_classification ⟨"README", true, false⟩).2.2.2.2.1
      (by decide) rfl (by decide)).1
  · have h := ((c5_scan_classification ⟨"data.csv", true, false⟩).2.2.2.2.2.1
      (by decide) rfl (by decide)).1
    rw [h]
    decide

/-! ### Transport and orchestrator outcome lemmas -/

theorem get_auth_error_shape :
    ∀ (env : AuthEnv) (m : DieMsg), get_auth env = .error m →
      m = .passwdEnvUndefined := by
  rintro ⟨lg, pw, nl, np, pp⟩ m h
  cases lg with
  | some l => simp [get_auth] at h
  | none =>
    cases nl with
    | none => simp [get_auth] at h
    | some nlv =>
      cases np with
      | some npv => simp [get_auth] at h
      | none =>
        simp [get_auth] at h
        exact h.symm

theorem run_curl_outcome_shape (env : AuthEnv) (proc : CurlStep) :
    (∃ v, (run_curl_cmd env proc).outcome = .ok v) ∨
    (run_curl_cmd env proc).outcome = .exn ∨
    (run_curl_cmd env proc).outcome = .died .passwdEnvUndefined ∨
    (∃ rc el so, (run_curl_cmd env proc).outcome =
      .died (.curlNonzeroExit rc el so)) ∨
    (∃ st, (run_curl_cmd env proc).outcome = .died (.authenticationError st)) := by
  unfold run_curl_cmd
  rcases ha : get_auth env with m | a
  · right; right; left
    rw [get_auth_error_shape env m ha]
  · cases proc with
    | raises => right; left; rfl
    | runs r =>
      by_cases hrc : r.returncode ≠ 0
      · right; right; right; left
        refine ⟨r.returncode, r.elapsedStr, r.stdout, ?_⟩
        simp only [if_pos hrc]
      · rcases hp : parseStatusOf (respLinesOf r.stdout) with _ | st
        · right; left
          simp only [if_neg hrc, hp]
        · by_cases hs : st = 401 ∨ st = 403
          · right; right; right; right
            refine ⟨st, ?_⟩
            simp only [if_neg hrc, hp, if_pos hs]
          · left
            refine ⟨(pyDropLast (respLinesOf r.stdout), st, r.elapsedStr), ?_⟩
            simp only [if_neg hrc, hp, if_neg hs]

theorem run_curl_no_dot_msg (env : AuthEnv) (proc : CurlStep) :
    (run_curl_cmd env proc).outcome ≠ RunOutcome.died .dotInDirName := by
  rcases run_curl_outcome_shape env proc with ⟨v, h⟩ | h | h | ⟨rc, el, so, h⟩ | ⟨st, h⟩ <;>
    rw [h] <;> intro hc <;> simp at hc

theorem lookup_removeFile (files : List (String × String)) (n : String) :
    lookupFile (removeFile files n) n = none := by
  rw [lookupFile, removeFile]
  induction files with
  | nil => rfl
  | cons p rest ih =>
    by_cases hp : p.1 = n
    · simp only [List.filter_cons, hp]
      simp [hp]
    · simp only [List.filter_cons]
      rw [if_pos (by simp [hp])]
      simp [List.find?_cons, hp]

theorem lookup_writeFile (files : List (String × String)) (n c : String) :
    lookupFile (writeFile files n c) n = some c := by
  simp [lookupFile, writeFile, List.find?_cons]

/-! ### Claim C3: index file removed on every exit path -/

/-- Claim C3 (confirmed): whenever an upload reaches the transfer call (the
three validations pass, so the index file was written and `filesAtTransfer`
is set), the temporary index file `<artifactId>.txt` is absent from the
directory at the end of the run — for every transport behaviour: success
(204), an unexpected status, a fatal `die` inside the transport wrapper, or a
raised exception. -/
theorem c3_index_cleanup (dirArg : String) (ver : Option String)
    (fs : UploadFS) (env : AuthEnv) (proc : CurlStep)
    (h1 : fs.pathExists = true) (h2 : fs.isDir = true)
    (h3 : containsChar '.' (pyStripSlashes dirArg) = false) :
    (do_upload dirArg ver fs env proc).filesAtTransfer.isSome = true ∧
    lookupFile (do_upload dirArg ver fs env proc).finalFiles
      (pyBasename (pyStripSlashes dirArg) ++ ".txt") = none := by
  simp only [do_upload, h1, h2, h3, Bool.not_true, Bool.false_eq_true,
    if_false]
  rcases ho : (run_curl_cmd env proc).outcome with v | m | _
  · rcases v with ⟨resp, st, elapsed⟩
    simp only [ho]
    by_cases hst : st ≠ 204
    · simp only [if_pos hst]
      exact ⟨rfl, lookup_removeFile _ _⟩
    · simp only [if_neg hst]
      exact ⟨rfl, lookup_removeFile _ _⟩
  · simp only [ho]
    exact ⟨rfl, lookup_removeFile _ _⟩
  · simp only [ho]
    exact ⟨rfl, lookup_removeFile _ _⟩

/-- Claim C3 (witness): a concrete successful upload (status 204) of a
directory with one file leaves no `report.txt` behind. -/
theorem c3_index_cleanup_witness :
    (do_upload "report" none
        ⟨true, true, [⟨"data.csv", true, false⟩], []⟩ sampleEnv
        (.runs ⟨0, "\n**http_status=204\n", "0:00:03"⟩)).filesAtTransfer.isSome
      = true ∧
    lookupFile (do_upload "report" none
        ⟨true, true, [⟨"data.csv", true, false⟩], []⟩ sampleEnv
        (.runs ⟨0, "\n**http_status=204\n", "0:00:03"⟩)).finalFiles
      (pyBasename (pyStripSlashes "report") ++ ".txt") = none :=
  c3_index_cleanup "report" none
    ⟨true, true, [⟨"data.csv", true, false⟩], []⟩ sampleEnv
    (.runs ⟨0, "\n**http_status=204\n", "0:00:03"⟩) rfl rfl (by decide)

/-! ### Claim C4: the dot validation -/

/-- Claim C4 (counterexample): the script tests `'.' in directory` on the
whole stripped path, not on the base name.  Uploading the existing directory
`v1.0/data` — whose base name `data` contains no dot — still dies with the
dot-validation error (before any network call). -/
theorem c4_dot_validation_counterexample :
    do_upload "v1.0/data" none ⟨true, true, [], []⟩ sampleEnv .raises
      = ⟨false, none, [], .died .dotInDirName⟩ ∧
    containsChar '.' (pyBasename (pyStripSlashes "v1.0/data")) = false := by
  refine ⟨by decide, by decide⟩

/-- Claim C4 (amended): for a path that exists and is a directory, the upload
fails with the dot-validation error exactly when the slash-stripped directory
path (not merely its base name) contains a dot; when it does, the failure
happens with no network call attempted and before the index file is written. -/
theorem c4_dot_validation (dirArg : String) (ver : Option String)
    (fs : UploadFS) (env : AuthEnv) (proc : CurlStep)
    (h1 : fs.pathExists = true) (h2 : fs.isDir = true) :
    (containsChar '.' (pyStripSlashes dirArg) = true →
      do_upload dirArg ver fs env proc
        = ⟨false, none, fs.files, .died .dotInDirName⟩) ∧
    (containsChar '.' (pyStripSlashes dirArg) = false →
      (do_upload dirArg ver fs env proc).outcome ≠ .died .dotInDirName) := by
  constructor
  · intro hdot
    simp only [do_upload, h1, h2, hdot, Bool.not_true, Bool.false_eq_true,
      if_false, if_true]
  · intro hdot
    simp only [do_upload, h1, h2, hdot, Bool.not_true, Bool.false_eq_true,
      if_false]
    rcases ho : (run_curl_cmd env proc).outcome with v | m | _
    · rcases v with ⟨resp, st, elapsed⟩
      simp only [ho]
      by_cases hst : st ≠ 204
      · simp only [if_pos hst]
        intro hc
        simp at hc
      · simp only [if_neg hst]
        intro hc
        simp at hc
    · simp only [ho]
      intro hc
      injection hc with hm
      rw [hm] at ho
      exact run_curl_no_dot_msg env proc ho
    · simp only [ho]
      intro hc
      simp at hc

/-- Claim C4 (witness): a dot-free directory that exists never triggers the
dot-validation error, and a dotted path triggers it. -/
theorem c4_dot_validation_witness :
    do_upload "report.v2" none ⟨true, true, [], []⟩ sampleEnv .raises
      = ⟨false, none, [], .died .dotInDirName⟩ :=
  (c4_dot_validation "report.v2" none ⟨true, true, [], []⟩ sampleEnv .raises
    rfl rfl).1 (by decide)

/-! ### Claim C6: 401/403 reported as authentication errors -/

/-- Claim C6 (confirmed): whenever the transport call's parsed HTTP status is
401 or 403, the run dies inside `run_curl_cmd` with the distinct
authentication-error message (which directs the user to check login and
password) — never with a generic transport-failure message — and this holds
at every call site: the upload, the download index fetch, and the download
bulk fetch. -/
theorem c6_auth_error (env : AuthEnv) (a : Option String) (r : ProcResult)
    (st : Int)
    (hauth : get_auth env = .ok a) (hr0 : r.returncode = 0)
    (hp : parseStatusOf (respLinesOf r.stdout) = some st)
    (hs : st = 401 ∨ st = 403) :
    run_curl_cmd env (.runs r) = ⟨true, .died (.authenticationError st)⟩ ∧
    strIncludes "check login and password"
      (renderMsg (.authenticationError st)) = true ∧
    (∀ dirArg ver fs, fs.pathExists = true → fs.isDir = true →
      containsChar '.' (pyStripSlashes dirArg) = false →
      (do_upload dirArg ver fs env (.runs r)).outcome
        = .died (.authenticationError st)) ∧
    (∀ art ver w bulk, (w.destExists && w.destNonEmpty) = false →
      (do_download art ver w env (.runs r) bulk).outcome
        = .died (.authenticationError st)) ∧
    (∀ art ver w idxP names el2, (w.destExists && w.destNonEmpty) = false →
      run_curl_cmd env idxP = ⟨true, .ok (names, 200, el2)⟩ →
      names.length ≠ 0 →
      (do_download art ver w env idxP (.runs r)).outcome
        = .died (.authenticationError st)) := by
  have hmain : run_curl_cmd env (.runs r)
      = ⟨true, .died (.authenticationError st)⟩ := by
    unfold run_curl_cmd
    rw [hauth]
    simp only [hr0, ne_eq, hp]
    rw [if_neg (by simp), if_pos hs]
  refine ⟨hmain, ?_, ?_, ?_, ?_⟩
  · apply strIncludes_intro _ _
      (("curl failed: status=" ++ toString st ++ " (authentication error) => ").data)
      ((" ").data)
    simp only [renderMsg, strData_append, List.append_assoc]
    congr 2
  · intro dirArg ver fs h1 h2 h3
    simp only [do_upload, h1, h2, h3, Bool.not_true, Bool.false_eq_true,
      if_false, hmain]
  · intro art ver w bulk hw
    simp only [do_download, hw, Bool.false_eq_true, if_false, hmain]
  · intro art ver w idxP names el2 hw hidx hn
    simp only [do_download, hw, Bool.false_eq_true, if_false, hidx]
    rw [if_neg (by simp)]
    rw [if_neg hn]
    simp only [hmain]

/-- Claim C6 (witness): a 403 response to a transport call dies with the
authentication error, at a concrete input. -/
theorem c6_auth_error_witness :
    run_curl_cmd sampleEnv (.runs ⟨0, "\n**http_status=403\n", "0:00:01"⟩)
      = ⟨true, .died (.authenticationError 403)⟩ :=
  (c6_auth_error sampleEnv (some "u:p")
    ⟨0, "\n**http_status=403\n", "0:00:01"⟩ 403
    rfl rfl (by decide) (Or.inr rfl)).1

/-! ### Claim C7: failure messages -/

/-- Claim C7 (counterexample): not every transport failure message carries the
status code, the elapsed time and the captured output.  A 404 on the download
index fetch dies with the fixed message
"download failed: directory or index file not found. Did you upload using
this tool ?", which contains none of them. -/
theorem c7_message_counterexample :
    do_download "report" (some "2.1") ⟨false, false⟩ sampleEnv
        (.runs ⟨0, "Not Found\n\n**http_status=404\n", "0:00:07"⟩) .raises
      = ⟨[.mkdirEv, .curlEv], .died .downloadIndexNotFound⟩ ∧
    strIncludes "404" (renderMsg .downloadIndexNotFound) = false ∧
    strIncludes "0:00:07" (renderMsg .downloadIndexNotFound) = false ∧
    strIncludes "Not Found" (renderMsg .downloadIndexNotFound) = false := by
  refine ⟨by decide, by decide, by decide, by decide⟩

/-- Claim C7 (amended): the `die` messages for a non-zero curl exit, for an
upload status ≠ 204, and for a download bulk-fetch status ≠ 200 each include
the status code, the elapsed time, and the captured output (as the script
formats them); the download index-fetch status failure instead dies with a
fixed message suggesting the artifact was not uploaded with this tool, and
carries none of those fields. -/
theorem c7_transport_messages (rc st st2 : Int) (el el2 el3 so : String)
    (resp resp2 : List String) :
    (strIncludes (toString rc) (renderMsg (.curlNonzeroExit rc el so)) = true ∧
     strIncludes el (renderMsg (.curlNonzeroExit rc el so)) = true ∧
     strIncludes (pyBytesRepr so) (renderMsg (.curlNonzeroExit rc el so)) = true) ∧
    (strIncludes (toString st) (renderMsg (.uploadFailedStatus st resp el2)) = true ∧
     strIncludes el2 (renderMsg (.uploadFailedStatus st resp el2)) = true ∧
     strIncludes (pyListRepr resp)
       (renderMsg (.uploadFailedStatus st resp el2)) = true) ∧
    (strIncludes (toString st2)
       (renderMsg (.downloadFailedStatus st2 resp2 el3)) = true ∧
     strIncludes el3 (renderMsg (.downloadFailedStatus st2 resp2 el3)) = true ∧
     strIncludes (pyListRepr resp2)
       (renderMsg (.downloadFailedStatus st2 resp2 el3)) = true) ∧
    renderMsg .downloadIndexNotFound =
      "download failed: directory or index file not found. Did you upload using this tool ?" := by
  refine ⟨⟨?_, ?_, ?_⟩, ⟨?_, ?_, ?_⟩, ⟨?_, ?_, ?_⟩, rfl⟩
  · apply strIncludes_intro _ _ (("curl failed: status=").data)
      ((" time=" ++ el ++ " stdout=" ++ pyBytesRepr so ++ " stderr=None").data)
    simp only [renderMsg, strData_append, List.append_assoc]
  · apply strIncludes_intro _ _
      (("curl failed: status=" ++ toString rc ++ " time=").data)
      ((" stdout=" ++ pyBytesRepr so ++ " stderr=None").data)
    simp only [renderMsg, strData_append, List.append_assoc]
  · apply strIncludes_intro _ _
      (("curl failed: status=" ++ toString rc ++ " time=" ++ el ++ " stdout=").data)
      ((" stderr=None").data)
    simp only [renderMsg, strData_append, List.append_assoc]
  · apply strIncludes_intro _ _ (("upload failed stats=").data)
      ((" != 204 response=" ++ pyListRepr resp ++ " (" ++ el2 ++ ")").data)
    simp only [renderMsg, strData_append, List.append_assoc]
  · apply strIncludes_intro _ _
      (("upload failed stats=" ++ toString st ++ " != 204 response=" ++
        pyListRepr resp ++ " (").data)
      ((")").data)
    simp only [renderMsg, strData_append, List.append_assoc]
  · apply strIncludes_intro _ _
      (("upload failed stats=" ++ toString st ++ " != 204 response=").data)
      ((" (" ++ el2 ++ ")").data)
    simp only [renderMsg, strData_append, List.append_assoc]
  · apply strIncludes_intro _ _ (("download failed httpStatus=").data)
      ((" (" ++ el3 ++ ") httpResp=" ++ pyListRepr resp2 ++ " ").data)
    simp only [renderMsg, strData_append, List.append_assoc]
  · apply strIncludes_intro _ _
      (("download failed httpStatus=" ++ toString st2 ++ " (").data)
      ((") httpResp=" ++ pyListRepr resp2 ++ " ").data)
    simp only [renderMsg, strData_append, List.append_assoc]
  · apply strIncludes_intro _ _
      (("download failed httpStatus=" ++ toString st2 ++ " (" ++ el3 ++
        ") httpResp=").data)
      ((" ").data)
    simp only [renderMsg, strData_append, List.append_assoc]

/-! ### Claim C8: destination-directory validation -/

/-- Claim C8 (confirmed): a download into an existing non-empty destination
dies with the destination-validation error with an empty event trace — no
network call, no mkdir; when the destination does not exist it is created
first, before the index fetch (the trace starts with the mkdir event). -/
theorem c8_download_dest_validation (art : String) (ver : Option String)
    (w : DownloadWorld) (env : AuthEnv) (p1 p2 : CurlStep) :
    (w.destExists = true → w.destNonEmpty = true →
      do_download art ver w env p1 p2
        = ⟨[], .died (.destNotEmpty (art ++ "-" ++ ver.getD "1.0"))⟩) ∧
    (w.destExists = false →
      (do_download art ver w env p1 p2).trace.head? = some .mkdirEv) := by
  constructor
  · intro h1 h2
    simp only [do_download, h1, h2, Bool.and_self, if_true]
  · intro h1
    simp only [do_download, h1, Bool.false_and, Bool.false_eq_true, if_false]
    rcases ho : (run_curl_cmd env p1).outcome with v | m | _
    · rcases v with ⟨names, st, el⟩
      simp only [ho]
      by_cases hst : st ≠ 200
      · simp only [if_pos hst]
        rfl
      · simp only [if_neg hst]
        by_cases hn : names.length = 0
        · simp only [if_pos hn]
          rfl
        · simp only [if_neg hn]
          rcases ho2 : (run_curl_cmd env p2).outcome with v2 | m2 | _
          · rcases v2 with ⟨resp2, st2, el2⟩
            simp only [ho2]
            by_cases hst2 : st2 ≠ 200
            · simp only [if_pos hst2]
              rfl
            · simp only [if_neg hst2]
              rfl
          · simp only [ho2]
            rfl
          · simp only [ho2]
            rfl
    · simp only [ho]
      rfl
    · simp only [ho]
      rfl

/-- Claim C8 (witness): concrete non-empty destination fails with the
validation error and no events. -/
theorem c8_download_dest_validation_witness :
    do_download "report" (some "2.1") ⟨true, true⟩ sampleEnv .raises .raises
      = ⟨[], .died (.destNotEmpty ("report" ++ "-" ++ (some "2.1").getD "1.0"))⟩ :=
  (c8_download_dest_validation "report" (some "2.1") ⟨true, true⟩ sampleEnv
    .raises .raises).1 rfl rfl

/-! ### Claim C9: NEXUS_LOGIN without NEXUS_PASSWD -/

/-- Claim C9 (confirmed): with no explicit login, `NEXUS_LOGIN` set and
`NEXUS_PASSWD` unset, every transport call dies with
"NEXUS_PASSWD env variable is not defined" before `subprocess.run` is
reached; consequently no upload or download run ever invokes curl, and any
run that passes its local validations fails with exactly this configuration
error. -/
theorem c9_passwd_env (env : AuthEnv) (l : String) (proc : CurlStep)
    (h1 : env.login = none) (h2 : env.nexusLogin = some l)
    (h3 : env.nexusPasswd = none) :
    run_curl_cmd env proc = ⟨false, .died .passwdEnvUndefined⟩ ∧
    (∀ dirArg ver fs, (do_upload dirArg ver fs env proc).invoked = false) ∧
    (∀ dirArg ver fs, fs.pathExists = true → fs.isDir = true →
      containsChar '.' (pyStripSlashes dirArg) = false →
      (do_upload dirArg ver fs env proc).outcome = .died .passwdEnvUndefined) ∧
    (∀ art ver w p2, DlEv.curlEv ∉ (do_download art ver w env proc p2).trace) ∧
    (∀ art ver w p2, (w.destExists && w.destNonEmpty) = false →
      (do_download art ver w env proc p2).outcome = .died .passwdEnvUndefined) := by
  have hauth : get_auth env = .error .passwdEnvUndefined := by
    rw [get_auth, h1, h2, h3]
  have hmain : run_curl_cmd env proc = ⟨false, .died .passwdEnvUndefined⟩ := by
    unfold run_curl_cmd
    rw [hauth]
  refine ⟨hmain, ?_, ?_, ?_, ?_⟩
  · intro dirArg ver fs
    simp only [do_upload, hmain]
    split
    · rfl
    · split
      · rfl
      · split
        · rfl
        · rfl
  · intro dirArg ver fs hfs1 hfs2 hfs3
    simp only [do_upload, hfs1, hfs2, hfs3, Bool.not_true, Bool.false_eq_true,
      if_false, hmain]
  · intro art ver w p2
    simp only [do_download, hmain, evOf]
    split
    · simp
    · simp only [Bool.false_eq_true, if_false, List.append_nil]
      split <;> simp
  · intro art ver w p2 hw
    simp only [do_download, hw, Bool.false_eq_true, if_false, hmain]

/-- Claim C9 (witness): concrete environment with `NEXUS_LOGIN=u` and no
`NEXUS_PASSWD` dies with the configuration error without invoking curl. -/
theorem c9_passwd_env_witness :
    run_curl_cmd ⟨none, none, some "u", none, "pw"⟩ .raises
      = ⟨false, .died .passwdEnvUndefined⟩ :=
  (c9_passwd_env ⟨none, none, some "u", none, "pw"⟩ "u" .raises
    rfl rfl rfl).1

/-! ### Claim C10: a pre-existing `<artifactId>.txt` is clobbered -/

theorem mem_scanAssets (e : DirEntry) (helig : eligibleB e = true) :
    ∀ (entries : List DirEntry), e ∈ entries →
    ∀ i, ∃ k, Asset.mk k (some (classifierOf e.name)) (extensionOf e.name) e.name
      ∈ scanAssets i entries := by
  intro entries
  induction entries with
  | nil => intro he; cases he
  | cons e0 rest ih =>
    intro he i
    rcases List.mem_cons.mp he with heq | hmem
    · subst heq
      have hc : (!startsWithDot e.name && e.isFile) = true := by
        rw [eligibleB, Bool.and_eq_true] at helig
        exact helig.1
      have h3 : ¬ (pySplit '.' e.name).length < 2 := by
        rw [eligibleB, Bool.and_eq_true] at helig
        have hh := helig.2
        rw [hasDotParts] at hh
        by_contra hlt
        rw [if_pos hlt] at hh
        cases hh
      refine ⟨i, ?_⟩
      rw [scanAssets, if_pos hc, if_neg h3]
      exact List.mem_cons_self _ _
    · rw [scanAssets]
      by_cases hc : (!startsWithDot e0.name && e0.isFile) = true
      · rw [if_pos hc]
        by_cases hl2 : (pySplit '.' e0.name).length < 2
        · rw [if_pos hl2]
          exact ih hmem i
        · rw [if_neg hl2]
          obtain ⟨k, hk⟩ := ih hmem (i + 1)
          exact ⟨k, List.mem_cons_of_mem _ hk⟩
      · rw [if_neg hc]
        exact ih hmem i

theorem split_art_txt (art : String) (hdot : containsChar '.' art = false) :
    pySplit '.' (art ++ ".txt") = [art, "txt"] := by
  rw [pySplit]
  have hdata : (art ++ ".txt").data = art.data ++ '.' :: ("txt").data := rfl
  rw [hdata, pySplitChGo_sep_append '.' art.data ("txt").data
    (containsChar_forall hdot) [],
    pySplitChGo_no_sep '.' ("txt").data (by decide) []]
  simp [mk_data]

theorem startsWithDot_art_txt (art : String) (hne : art ≠ "")
    (hdot : containsChar '.' art = false) :
    startsWithDot (art ++ ".txt") = false := by
  have hd := data_ne_nil_of_ne hne
  rcases hl : art.data with _ | ⟨c, cs⟩
  · exact absurd hl hd
  · have hdata : (art ++ ".txt").data = c :: (cs ++ (".txt").data) := by
      rw [strData_append, hl]
      rfl
    have hc : c ≠ '.' :=
      containsChar_forall hdot c (by rw [hl]; exact List.mem_cons_self c cs)
    rw [startsWithDot]
    simp only [hdata]
    simp [hc]

theorem eligible_art_txt (art : String) (hne : art ≠ "")
    (hdot : containsChar '.' art = false) :
    eligibleB ⟨art ++ ".txt", true, false⟩ = true ∧
    classifierOf (art ++ ".txt") = art ∧
    extensionOf (art ++ ".txt") = "txt" := by
  have hsplit := split_art_txt art hdot
  have hstart := startsWithDot_art_txt art hne hdot
  refine ⟨?_, ?_, ?_⟩
  · rw [eligibleB]
    simp [hstart, hasDotParts, hsplit]
  · rw [classifierOf, hsplit]
    rfl
  · rw [extensionOf, hsplit]
    simp [List.getLastD]

/-- Claim C10 (confirmed): when the upload directory already holds a regular
file named `<artifactId>.txt`, the scan lists it as an ordinary asset
(classifier `<artifactId>`, extension `txt`); the index write then overwrites
its contents with the generated index, and the `finally` cleanup removes the
file after the transfer — for every transport outcome, success included — so
the original contents are lost. -/
theorem c10_preexisting_index (dirArg : String) (ver : Option String)
    (fs : UploadFS) (env : AuthEnv) (proc : CurlStep) (orig : String)
    (h1 : fs.pathExists = true) (h2 : fs.isDir = true)
    (h3 : containsChar '.' (pyStripSlashes dirArg) = false)
    (hne : pyBasename (pyStripSlashes dirArg) ≠ "")
    (hadot : containsChar '.' (pyBasename (pyStripSlashes dirArg)) = false)
    (hmem : DirEntry.mk (pyBasename (pyStripSlashes dirArg) ++ ".txt") true false
      ∈ fs.entries)
    (_horig : lookupFile fs.files
      (pyBasename (pyStripSlashes dirArg) ++ ".txt") = some orig) :
    (∃ k, Asset.mk k (some (pyBasename (pyStripSlashes dirArg))) "txt"
        (pyBasename (pyStripSlashes dirArg) ++ ".txt")
      ∈ uploadManifest (pyBasename (pyStripSlashes dirArg)) fs.entries) ∧
    (do_upload dirArg ver fs env proc).filesAtTransfer
      = some (writeFile fs.files (pyBasename (pyStripSlashes dirArg) ++ ".txt")
          (writelines (idxEntriesOf (pyBasename (pyStripSlashes dirArg))
            (ver.getD "1.0") fs.entries))) ∧
    lookupFile (writeFile fs.files (pyBasename (pyStripSlashes dirArg) ++ ".txt")
        (writelines (idxEntriesOf (pyBasename (pyStripSlashes dirArg))
          (ver.getD "1.0") fs.entries)))
      (pyBasename (pyStripSlashes dirArg) ++ ".txt")
      = some (writelines (idxEntriesOf (pyBasename (pyStripSlashes dirArg))
          (ver.getD "1.0") fs.entries)) ∧
    lookupFile (do_upload dirArg ver fs env proc).finalFiles
      (pyBasename (pyStripSlashes dirArg) ++ ".txt") = none := by
  obtain ⟨helig, hcls, hext⟩ :=
    eligible_art_txt (pyBasename (pyStripSlashes dirArg)) hne hadot
  refine ⟨?_, ?_, lookup_writeFile _ _ _, ?_⟩
  · obtain ⟨k, hk⟩ := mem_scanAssets _ helig fs.entries hmem 2
    rw [hcls, hext] at hk
    exact ⟨k, List.mem_cons_of_mem _ hk⟩
  · simp only [do_upload, h1, h2, h3, Bool.not_true, Bool.false_eq_true,
      if_false]
    rcases ho : (run_curl_cmd env proc).outcome with v | m | _
    · rcases v with ⟨resp, st, elapsed⟩
      simp only [ho]
      by_cases hst : st ≠ 204
      · simp only [if_pos hst]
      · simp only [if_neg hst]
    · simp only [ho]
    · simp only [ho]
  · simp only [do_upload, h1, h2, h3, Bool.not_true, Bool.false_eq_true,
      if_false]
    rcases ho : (run_curl_cmd env proc).outcome with v | m | _
    · rcases v with ⟨resp, st, elapsed⟩
      simp only [ho]
      by_cases hst : st ≠ 204
      · simp only [if_pos hst]
        exact lookup_removeFile _ _
      · simp only [if_neg hst]
        exact lookup_removeFile _ _
    · simp only [ho]
      exact lookup_removeFile _ _
    · simp only [ho]
      exact lookup_removeFile _ _

/-- Claim C10 (witness): a concrete successful upload (status 204) of
directory `report` containing a pre-existing `report.txt` (contents `"OLD"`):
the file is an eligible asset and is gone afterwards. -/
theorem c10_preexisting_index_witness :
    (∃ k, Asset.mk k (some (pyBasename (pyStripSlashes "report"))) "txt"
        (pyBasename (pyStripSlashes "report") ++ ".txt")
      ∈ uploadManifest (pyBasename (pyStripSlashes "report"))
          [⟨"report.txt", true, false⟩, ⟨"data.csv", true, false⟩]) ∧
    lookupFile (do_upload "report" none
        ⟨true, true, [⟨"report.txt", true, false⟩, ⟨"data.csv", true, false⟩],
          [("report.txt", "OLD")]⟩ sampleEnv
        (.runs ⟨0, "\n**http_status=204\n", "0:00:03"⟩)).finalFiles
      (pyBasename (pyStripSlashes "report") ++ ".txt") = none := by
  have h := c10_preexisting_index "report" none
    ⟨true, true, [⟨"report.txt", true, false⟩, ⟨"data.csv", true, false⟩],
      [("report.txt", "OLD")]⟩ sampleEnv
    (.runs ⟨0, "\n**http_status=204\n", "0:00:03"⟩) "OLD"
    rfl rfl (by decide) (by decide) (by decide) (by decide) (by decide)
  exact ⟨h.1, h.2.2.2⟩

end NexusCli
